import Mathlib

/-!
Verification of the grant/keyspace/role logic of the
`terraform-provider-cassandra` repository, shallowly embedded from the Go
sources (`resource_cassandra_grant.go`, `resource_cassandra_keyspace.go`,
`resource_cassandra_role.go`, `shared.go`).
-/

namespace CassandraProvider

/-! ### Constants (from `resource_cassandra_grant.go`, `const` block) -/

def privilegeAll : String := "all"

def privilegeCreate : String := "create"

def privilegeAlter : String := "alter"

def privilegeDrop : String := "drop"

def privilegeSelect : String := "select"

def privilegeModify : String := "modify"

def privilegeAuthorize : String := "authorize"

def privilegeDescribe : String := "describe"

def privilegeExecute : String := "execute"

def resourceAllFunctions : String := "all functions"

def resourceAllFunctionsInKeyspace : String := "all functions in keyspace"

def resourceFunction : String := "function"

def resourceAllKeyspaces : String := "all keyspaces"

def resourceKeyspace : String := "keyspace"

def resourceTable : String := "table"

def resourceAllRoles : String := "all roles"

def resourceRole : String := "role"

def resourceRoles : String := "roles"

def resourceMbean : String := "mbean"

def resourceMbeans : String := "mbeans"

def resourceAllMbeans : String := "all mbeans"

def identifierFunctionName : String := "function_name"

def identifierTableName : String := "table_name"

def identifierMbeanName : String := "mbean_name"

def identifierMbeanPattern : String := "mbean_pattern"

def identifierRoleName : String := "role_name"

def identifierKeyspaceName : String := "keyspace_name"

def identifierGrantee : String := "grantee"

def identifierPrivilege : String := "privilege"

def identifierResourceType : String := "resource_type"

/-- `privilegeToResourceTypesMap` from `resource_cassandra_grant.go`
(a Go `map[string][]string`; a privilege with no entry yields the empty
slice, modelled here by the default branch). -/
def privilegeToResourceTypesMap (p : String) : List String :=
  if p = privilegeAll then
    [resourceAllFunctions, resourceAllFunctionsInKeyspace, resourceFunction,
     resourceAllKeyspaces, resourceKeyspace, resourceTable, resourceAllRoles, resourceRole]
  else if p = privilegeCreate then
    [resourceAllKeyspaces, resourceKeyspace, resourceAllFunctions,
     resourceAllFunctionsInKeyspace, resourceAllRoles]
  else if p = privilegeAlter then
    [resourceAllKeyspaces, resourceKeyspace, resourceTable, resourceAllFunctions,
     resourceAllFunctionsInKeyspace, resourceFunction, resourceAllRoles, resourceRole]
  else if p = privilegeDrop then
    [resourceKeyspace, resourceTable, resourceAllFunctions,
     resourceAllFunctionsInKeyspace, resourceFunction, resourceAllRoles, resourceRole]
  else if p = privilegeSelect then
    [resourceAllKeyspaces, resourceKeyspace, resourceTable, resourceAllMbeans,
     resourceMbeans, resourceMbean]
  else if p = privilegeModify then
    [resourceAllKeyspaces, resourceKeyspace, resourceTable, resourceAllMbeans,
     resourceMbeans, resourceMbean]
  else if p = privilegeAuthorize then
    [resourceAllKeyspaces, resourceKeyspace, resourceTable, resourceFunction,
     resourceAllFunctions, resourceAllFunctionsInKeyspace, resourceAllRoles, resourceRoles]
  else if p = privilegeDescribe then
    [resourceAllRoles, resourceAllMbeans]
  else if p = privilegeExecute then
    [resourceAllFunctions, resourceAllFunctionsInKeyspace, resourceFunction]
  else []

/-- `resourcesThatRequireKeyspaceQualifier` from `resource_cassandra_grant.go`. -/
def resourcesThatRequireKeyspaceQualifier : List String :=
  [resourceAllFunctionsInKeyspace, resourceFunction, resourceKeyspace, resourceTable]

/-- `resourceTypeToIdentifier` from `resource_cassandra_grant.go`
(a Go `map[string]string`; a missing key yields the zero value `""`). -/
def resourceTypeToIdentifier (r : String) : String :=
  if r = resourceFunction then identifierFunctionName
  else if r = resourceMbean then identifierMbeanName
  else if r = resourceMbeans then identifierMbeanPattern
  else if r = resourceTable then identifierTableName
  else if r = resourceRole then identifierRoleName
  else ""

/-! ### Data model -/

/-- The `Grant` struct from `resource_cassandra_grant.go`. -/
structure Grant where
  Privilege : String
  ResourceType : String
  Grantee : String
  Keyspace : String
  Identifier : String
deriving DecidableEq, Repr

/-- The Terraform attributes of a `cassandra_grant` resource, i.e. the
fields readable through `d.Get` in the grant handlers. -/
structure ResourceData where
  privilege : String := ""
  grantee : String := ""
  resource_type : String := ""
  keyspace_name : String := ""
  function_name : String := ""
  table_name : String := ""
  mbean_name : String := ""
  mbean_pattern : String := ""
  role_name : String := ""
deriving DecidableEq, Repr

/-- `d.Get(key).(string)` for a grant resource: dispatch on the schema
attribute name, with the Go zero value `""` for an unknown key. -/
def getAttr (d : ResourceData) (key : String) : String :=
  if key = identifierPrivilege then d.privilege
  else if key = identifierGrantee then d.grantee
  else if key = identifierResourceType then d.resource_type
  else if key = identifierKeyspaceName then d.keyspace_name
  else if key = identifierFunctionName then d.function_name
  else if key = identifierTableName then d.table_name
  else if key = identifierMbeanName then d.mbean_name
  else if key = identifierMbeanPattern then d.mbean_pattern
  else if key = identifierRoleName then d.role_name
  else ""

/-- The four `fmt.Errorf` sites of `parseData`, tagged by site; `message`
below reproduces the Go format strings. -/
inductive ParseError where
  | privilegeUnknown (resourceType privilege : String)
  | resourceNotAllowed (resourceType privilege : String)
  | keyspaceRequired (resourceType : String)
  | identifierRequired (identifierKey resourceType : String)
deriving DecidableEq, Repr

def ParseError.message : ParseError → String
  | .privilegeUnknown rt priv =>
      rt ++ " resource not applicable for privilege " ++ priv
  | .resourceNotAllowed rt priv =>
      rt ++ " resource not applicable for privilege " ++ priv ++
        " - valid resourceTypes are " ++
        String.intercalate ", " (privilegeToResourceTypesMap priv)
  | .keyspaceRequired rt => "keyspace name must be set for resourceType " ++ rt
  | .identifierRequired key rt => key ++ " needs to be set when resourceType = " ++ rt

/-- `parseData` from `resource_cassandra_grant.go`: validates the attribute
tuple against the compatibility table, the keyspace-qualifier rule and the
per-resource-type identifier rule, returning a `Grant` on success. -/
def parseData (d : ResourceData) : Except ParseError Grant :=
  let privilege := d.privilege
  let grantee := d.grantee
  let resourceType := d.resource_type
  let allowedResouceTypesForPrivilege := privilegeToResourceTypesMap privilege
  if allowedResouceTypesForPrivilege.length ≤ 0 then
    .error (.privilegeUnknown resourceType privilege)
  else
    let matchFound := allowedResouceTypesForPrivilege.any (fun value => value == resourceType)
    if !matchFound then
      .error (.resourceNotAllowed resourceType privilege)
    else
      let requiresKeyspaceQualifier :=
        resourcesThatRequireKeyspaceQualifier.any (fun r => resourceType == r)
      let keyspaceName := if requiresKeyspaceQualifier then d.keyspace_name else ""
      if requiresKeyspaceQualifier && keyspaceName == "" then
        .error (.keyspaceRequired resourceType)
      else
        let identifierKey := resourceTypeToIdentifier resourceType
        let identifier := if identifierKey != "" then getAttr d identifierKey else ""
        if identifierKey != "" && identifier == "" then
          .error (.identifierRequired identifierKey resourceType)
        else
          .ok { Privilege := privilege, ResourceType := resourceType,
                Grantee := grantee, Keyspace := keyspaceName, Identifier := identifier }

/-- `true` iff `parseData` produced a `Grant`. -/
def grantReturned : Except ParseError Grant → Bool
  | .ok _ => true
  | .error _ => false

/-- `true` iff the result is an error from one of the two
privilege/resource-type compatibility checks of `parseData`. -/
def isCompatError : Except ParseError Grant → Bool
  | .error (.privilegeUnknown _ _) => true
  | .error (.resourceNotAllowed _ _) => true
  | _ => false

/-- `true` iff the result is the missing-keyspace error of `parseData`. -/
def isKeyspaceError : Except ParseError Grant → Bool
  | .error (.keyspaceRequired _) => true
  | _ => false

/-! ### CQL statement templates

The grant handlers render `Grant` values through Go `html/template`
templates (note: `html/template`, not `text/template`, so every
interpolated value is HTML-escaped in the text context):

  deleteGrantRawTemplate:
    REVOKE P ON RT (if Keyspace then quoted Keyspace)
    (if Keyspace and Identifier then a dot) (if Identifier then quoted
    Identifier) FROM quoted Grantee
  createGrantRawTemplate: same with GRANT ... TO
  readGrantRawTemplate:   same with LIST ... OF
-/

/-- HTML text-context escaping applied by Go `html/template` to each
interpolated value (`htmlReplacementTable`): the five characters
double quote, apostrophe, ampersand, less-than, greater-than, plus the
NUL byte which is replaced by U+FFFD. -/
def htmlEscapeChar (c : Char) : String :=
  if c = Char.ofNat 0 then String.singleton (Char.ofNat 65533)
  else if c = '"' then "&#34;"
  else if c = Char.ofNat 39 then "&#39;"
  else if c = '&' then "&amp;"
  else if c = '<' then "&lt;"
  else if c = '>' then "&gt;"
  else String.singleton c

def htmlEscapeList : List Char → String
  | [] => ""
  | c :: cs => htmlEscapeChar c ++ htmlEscapeList cs

def htmlEscape (s : String) : String := htmlEscapeList s.data

/-- `true` iff `s` contains none of the characters rewritten by
`html/template` in the text context. -/
def hasNoHtmlSpecial (s : String) : Bool :=
  s.data.all fun c =>
    !(c == Char.ofNat 0 || c == '"' || c == Char.ofNat 39 || c == '&' || c == '<' || c == '>')

/-- An atom of a template: literal text, or a `.Field` action (whose
output `html/template` escapes). -/
inductive TAtom where
  | text (s : String)
  | field (f : Grant → String)

/-- A top-level template node: an atom, or an `if`-block over atoms
(Go template truthiness: a string guard is truthy iff non-empty,
`and` of two guards iff both are). -/
inductive TNode where
  | atom (a : TAtom)
  | cond (c : Grant → Bool) (body : List TAtom)

def TAtom.render (g : Grant) : TAtom → String
  | .text s => s
  | .field f => htmlEscape (f g)

def renderAtoms (g : Grant) : List TAtom → String
  | [] => ""
  | a :: rest => a.render g ++ renderAtoms g rest

def TNode.render (g : Grant) : TNode → String
  | .atom a => a.render g
  | .cond c body => if c g then renderAtoms g body else ""

def executeTemplate (g : Grant) : List TNode → String
  | [] => ""
  | n :: rest => n.render g ++ executeTemplate g rest

/-- `createGrantRawTemplate` from `resource_cassandra_grant.go`, as a
parsed node list. -/
def templateCreate : List TNode :=
  [.atom (.text "GRANT "), .atom (.field Grant.Privilege), .atom (.text " ON "),
   .atom (.field Grant.ResourceType), .atom (.text " "),
   .cond (fun g => g.Keyspace != "") [.text "\"", .field Grant.Keyspace, .text "\""],
   .cond (fun g => g.Keyspace != "" && g.Identifier != "") [.text "."],
   .cond (fun g => g.Identifier != "") [.text "\"", .field Grant.Identifier, .text "\""],
   .atom (.text " TO \""), .atom (.field Grant.Grantee), .atom (.text "\"")]

/-- `deleteGrantRawTemplate` from `resource_cassandra_grant.go`. -/
def templateDelete : List TNode :=
  [.atom (.text "REVOKE "), .atom (.field Grant.Privilege), .atom (.text " ON "),
   .atom (.field Grant.ResourceType), .atom (.text " "),
   .cond (fun g => g.Keyspace != "") [.text "\"", .field Grant.Keyspace, .text "\""],
   .cond (fun g => g.Keyspace != "" && g.Identifier != "") [.text "."],
   .cond (fun g => g.Identifier != "") [.text "\"", .field Grant.Identifier, .text "\""],
   .atom (.text " FROM \""), .atom (.field Grant.Grantee), .atom (.text "\"")]

/-- `readGrantRawTemplate` from `resource_cassandra_grant.go`. -/
def templateRead : List TNode :=
  [.atom (.text "LIST "), .atom (.field Grant.Privilege), .atom (.text " ON "),
   .atom (.field Grant.ResourceType), .atom (.text " "),
   .cond (fun g => g.Keyspace != "") [.text "\"", .field Grant.Keyspace, .text "\""],
   .cond (fun g => g.Keyspace != "" && g.Identifier != "") [.text "."],
   .cond (fun g => g.Identifier != "") [.text "\"", .field Grant.Identifier, .text "\""],
   .atom (.text " OF \""), .atom (.field Grant.Grantee), .atom (.text "\"")]

/-- `templateCreate.Execute(&buffer, grant)`. -/
def renderCreate (g : Grant) : String := executeTemplate g templateCreate

/-- `templateDelete.Execute(&buffer, grant)`. -/
def renderDelete (g : Grant) : String := executeTemplate g templateDelete

/-- `templateRead.Execute(&buffer, grant)`. -/
def renderRead (g : Grant) : String := executeTemplate g templateRead

/-! ### `hash` from `shared.go`: hex-encoded SHA-256

`shared.go` computes `hex.EncodeToString(sha256.Sum256([]byte(s))[:])`.
SHA-256 (FIPS 180-4) is embedded below over `Nat` with explicit
reduction modulo `2 ^ 32`; bytes are `Nat` values below 256. -/

def w32 : Nat := 4294967296

/-- 32-bit right rotation. -/
def rotr32 (n x : Nat) : Nat := ((x >>> n) ||| (x <<< (32 - n))) % w32

/-- 32-bit complement. -/
def not32 (x : Nat) : Nat := x ^^^ (w32 - 1)

def bigSigma0 (x : Nat) : Nat := rotr32 2 x ^^^ rotr32 13 x ^^^ rotr32 22 x

def bigSigma1 (x : Nat) : Nat := rotr32 6 x ^^^ rotr32 11 x ^^^ rotr32 25 x

def smallSigma0 (x : Nat) : Nat := rotr32 7 x ^^^ rotr32 18 x ^^^ (x >>> 3)

def smallSigma1 (x : Nat) : Nat := rotr32 17 x ^^^ rotr32 19 x ^^^ (x >>> 10)

/-- The 64 SHA-256 round constants (FIPS 180-4, written in decimal). -/
def sha256K : List Nat :=
  [1116352408, 1899447441, 3049323471, 3921009573,
   961987163, 1508970993, 2453635748, 2870763221,
   3624381080, 310598401, 607225278, 1426881987,
   1925078388, 2162078206, 2614888103, 3248222580,
   3835390401, 4022224774, 264347078, 604807628,
   770255983, 1249150122, 1555081692, 1996064986,
   2554220882, 2821834349, 2952996808, 3210313671,
   3336571891, 3584528711, 113926993, 338241895,
   666307205, 773529912, 1294757372, 1396182291,
   1695183700, 1986661051, 2177026350, 2456956037,
   2730485921, 2820302411, 3259730800, 3345764771,
   3516065817, 3600352804, 4094571909, 275423344,
   430227734, 506948616, 659060556, 883997877,
   958139571, 1322822218, 1537002063, 1747873779,
   1955562222, 2024104815, 2227730452, 2361852424,
   2428436474, 2756734187, 3204031479, 3329325298]

/-- The SHA-256 initial hash value (FIPS 180-4, written in decimal). -/
def sha256H0 : List Nat :=
  [1779033703, 3144134277, 1013904242, 2773480762,
   1359893119, 2600822924, 528734635, 1541459225]

/-- `n` as `len` big-endian bytes. -/
def toBytesBE (n len : Nat) : List Nat :=
  (List.range len).map fun i => (n >>> (8 * (len - 1 - i))) % 256

/-- SHA-256 message padding: append `0x80`, zero bytes until the length is
56 mod 64, then the bit length as 8 big-endian bytes. -/
def sha256pad (msg : List Nat) : List Nat :=
  let len := msg.length
  let zeros := (64 + 56 - (len + 1) % 64) % 64
  msg ++ [0x80] ++ List.replicate zeros 0 ++ toBytesBE (8 * len) 8

/-- Split a byte list into 64-byte blocks (fuel-driven; `fuel = length`
suffices since each step drops at least one element). -/
def chunk64Go : Nat → List Nat → List (List Nat)
  | 0, _ => []
  | _, [] => []
  | fuel + 1, l => l.take 64 :: chunk64Go fuel (l.drop 64)

def chunk64 (l : List Nat) : List (List Nat) := chunk64Go l.length l

/-- The 64-word message schedule of a 64-byte block. -/
def sha256schedule (block : List Nat) : List Nat :=
  let w0 := (List.range 16).map fun i =>
    (block.getD (4 * i) 0 <<< 24) + (block.getD (4 * i + 1) 0 <<< 16) +
      (block.getD (4 * i + 2) 0 <<< 8) + block.getD (4 * i + 3) 0
  (List.range 48).foldl
    (fun w _ =>
      let n := w.length
      w ++ [(w.getD (n - 16) 0 + smallSigma0 (w.getD (n - 15) 0) +
             w.getD (n - 7) 0 + smallSigma1 (w.getD (n - 2) 0)) % w32])
    w0

/-- One SHA-256 compression step over the working variables. -/
def sha256round (k wi : Nat) : List Nat → List Nat
  | [a, b, c, d, e, f, g, h] =>
    let t1 := (h + bigSigma1 e + ((e &&& f) ^^^ (not32 e &&& g)) + k + wi) % w32
    let t2 := (bigSigma0 a + ((a &&& b) ^^^ (a &&& c) ^^^ (b &&& c))) % w32
    [(t1 + t2) % w32, a, b, c, (d + t1) % w32, e, f, g]
  | st => st

/-- SHA-256 compression of one block into the running hash. -/
def sha256compress (h : List Nat) (block : List Nat) : List Nat :=
  let w := sha256schedule block
  let final := (List.range 64).foldl
    (fun st i => sha256round (sha256K.getD i 0) (w.getD i 0) st) h
  List.zipWith (fun x y => (x + y) % w32) h final

/-- SHA-256 digest (32 bytes) of a byte list. -/
def sha256 (msg : List Nat) : List Nat :=
  let hFinal := (chunk64 (sha256pad msg)).foldl sha256compress sha256H0
  List.flatten (hFinal.map fun x => toBytesBE x 4)

def hexDigit (n : Nat) : Char :=
  if n < 10 then Char.ofNat (48 + n) else Char.ofNat (97 + n - 10)

def hexByte (b : Nat) : String :=
  String.singleton (hexDigit (b / 16)) ++ String.singleton (hexDigit (b % 16))

/-- `hex.EncodeToString`. -/
def hexEncode (bytes : List Nat) : String := String.join (bytes.map hexByte)

/-- `hash` from `shared.go`. -/
def hash (s : String) : String :=
  hexEncode (sha256 (s.toUTF8.data.toList.map UInt8.toNat))

/-- `fmt.Sprintf("%+v", grant)` for `grant : *Grant`: Go prints a pointer
to a struct under `%+v` as an ampersand followed by brace-enclosed
`Field:value` pairs in declaration order. -/
def formatGrant (g : Grant) : String :=
  "&\x7bPrivilege:" ++ g.Privilege ++ " ResourceType:" ++ g.ResourceType ++
    " Grantee:" ++ g.Grantee ++ " Keyspace:" ++ g.Keyspace ++
    " Identifier:" ++ g.Identifier ++ "\x7d"

/-! ### Effect model for the resource handlers

The handlers talk to the cluster through a `gocql` session.  The cluster's
observable behaviour is a `CassandraWorld`: whether session creation
fails, the outcome of `session.Query(q).Exec()` per statement, and the row
count / close error of `session.Query(q).Iter()` per statement.  Each
handler is embedded as a pure function returning its Go error result
together with the CQL statements it issued and the `d.Set` attribute
writes it performed. -/

structure CassandraWorld where
  sessionError : Option String := none
  execError : String → Option String := fun _ => none
  listRowCount : String → Nat := fun _ => 0
  listCloseError : String → Option String := fun _ => none
  roleSaltedHash : String → String := fun _ => ""

/-- Result of `resourceGrantExists`: the Go `(bool, error)` pair plus the
issued statements. -/
structure ExistsOutcome where
  found : Bool
  err : Option String
  queries : List String
deriving Repr

/-- `resourceGrantExists` from `resource_cassandra_grant.go`: parse, open a
session, run the LIST rendering, report `rowCount > 0` and the iterator
close error. -/
def resourceGrantExists (w : CassandraWorld) (d : ResourceData) : ExistsOutcome :=
  match parseData d with
  | .error e => ⟨false, some e.message, []⟩
  | .ok grant =>
    match w.sessionError with
    | some e => ⟨false, some e, []⟩
    | none =>
      let query := renderRead grant
      let rowCount := w.listRowCount query
      ⟨decide (rowCount > 0), w.listCloseError query, [query]⟩

/-- Result of `resourceGrantCreate`: the Go error, the ID stored by
`d.SetId` (if reached), and the issued statements. -/
structure CreateOutcome where
  err : Option String
  idSet : Option String
  queries : List String
deriving Repr

/-- `resourceGrantCreate` from `resource_cassandra_grant.go`: parse, open a
session, render the GRANT statement, set the resource ID to
`hash(fmt.Sprintf("%+v", grant))`, then execute the statement. -/
def resourceGrantCreate (w : CassandraWorld) (d : ResourceData) : CreateOutcome :=
  match parseData d with
  | .error e => ⟨some e.message, none, []⟩
  | .ok grant =>
    match w.sessionError with
    | some e => ⟨some e, none, []⟩
    | none =>
      let query := renderCreate grant
      let newId := hash (formatGrant grant)
      ⟨w.execError query, some newId, [query]⟩

/-- Result of a handler that may write attributes back to state. -/
structure HandlerOutcome where
  err : Option String
  writes : List (String × String)
  queries : List String
deriving Repr

/-- `resourceGrantRead` from `resource_cassandra_grant.go`: check
existence, fail with "Grant does not exist" on zero rows, otherwise parse
again and write the grant's attributes back to state. -/
def resourceGrantRead (w : CassandraWorld) (d : ResourceData) : HandlerOutcome :=
  let ex := resourceGrantExists w d
  match ex.err with
  | some e => ⟨some e, [], ex.queries⟩
  | none =>
    if !ex.found then ⟨some "Grant does not exist", [], ex.queries⟩
    else
      match parseData d with
      | .error e => ⟨some e.message, [], ex.queries⟩
      | .ok grant =>
        ⟨none,
         [(identifierResourceType, grant.ResourceType),
          (identifierGrantee, grant.Grantee),
          (identifierPrivilege, grant.Privilege)] ++
           (if grant.Keyspace != "" then [(identifierKeyspaceName, grant.Keyspace)] else []) ++
           (if grant.Identifier != "" then
             [(resourceTypeToIdentifier grant.ResourceType, grant.Identifier)] else []),
         ex.queries⟩

/-- `resourceGrantDelete` from `resource_cassandra_grant.go`: parse, render
the REVOKE statement, open a session and execute it. -/
def resourceGrantDelete (w : CassandraWorld) (d : ResourceData) : HandlerOutcome :=
  match parseData d with
  | .error e => ⟨some e.message, [], []⟩
  | .ok grant =>
    let query := renderDelete grant
    match w.sessionError with
    | some e => ⟨some e, [], []⟩
    | none => ⟨w.execError query, [], [query]⟩

/-- `resourceGrantUpdate` from `resource_cassandra_grant.go`: it
unconditionally returns an error, issues no statement and writes nothing. -/
def resourceGrantUpdate (_d : ResourceData) : HandlerOutcome :=
  ⟨some "Updating of grants is not supported", [], []⟩

/-! ### Keyspace and role handlers (`resource_cassandra_keyspace.go`,
`resource_cassandra_role.go`) -/

/-- `boolToAction` from `resource_cassandra_keyspace.go`: the DDL verb
used by `generateCreateOrUpdateKeyspaceQueryString` and
`resourceRoleCreateOrUpdate`. -/
def boolToAction (b : Bool) : String := if b then "CREATE" else "UPDATE"

/-- Go `%t` / `%v` rendering of a boolean. -/
def goBool (b : Bool) : String := if b then "true" else "false"

/-- `generateCreateOrUpdateKeyspaceQueryString` from
`resource_cassandra_keyspace.go` (strategy options modelled as an
association list; Go iterates the map in unspecified order, which only
affects the order of the option clauses). -/
def generateCreateOrUpdateKeyspaceQueryString (name : String) (create : Bool)
    (replicationStrategy : String) (strategyOptions : List (String × String))
    (durableWrites : Bool) : Except String String :=
  if strategyOptions.length = 0 then
    .error "Must specify stratgey options - see https://docs.datastax.com/en/cql/3.3/cql/cql_reference/cqlCreateKeyspace.html"
  else
    .ok (boolToAction create ++ " KEYSPACE " ++ name ++
      " WITH REPLICATION = \x7b \x27class\x27 : \x27" ++ replicationStrategy ++ "\x27" ++
      String.join (strategyOptions.map fun kv =>
        ", \x27" ++ kv.1 ++ "\x27 : \x27" ++ kv.2 ++ "\x27") ++
      " \x7d AND DURABLE_WRITES = " ++ goBool durableWrites)

/-- The Terraform attributes of a `cassandra_keyspace` resource. -/
structure KeyspaceData where
  name : String := ""
  replication_strategy : String := ""
  strategy_options : List (String × String) := []
  durable_writes : Bool := true

/-- `resourceKeyspaceUpdate` from `resource_cassandra_keyspace.go`:
generate the statement with `create = false`, open a session, execute. -/
def resourceKeyspaceUpdate (w : CassandraWorld) (k : KeyspaceData) : HandlerOutcome :=
  match generateCreateOrUpdateKeyspaceQueryString k.name false
      k.replication_strategy k.strategy_options k.durable_writes with
  | .error e => ⟨some e, [], []⟩
  | .ok query =>
    match w.sessionError with
    | some e => ⟨some e, [], []⟩
    | none => ⟨w.execError query, [], [query]⟩

/-- The Terraform attributes of a `cassandra_role` resource. -/
structure RoleData where
  name : String := ""
  password : String := ""
  super_user : Bool := false
  login : Bool := true

/-- The statement built inline in `resourceRoleCreateOrUpdate`
(`resource_cassandra_role.go`):
`%s ROLE '%s' WITH PASSWORD = '%s' AND LOGIN = %v AND SUPERUSER = %v`
with the verb `boolToAction[createRole]`. -/
def roleCreateOrUpdateQuery (createRole : Bool) (r : RoleData) : String :=
  boolToAction createRole ++ " ROLE \x27" ++ r.name ++
    "\x27 WITH PASSWORD = \x27" ++ r.password ++ "\x27 AND LOGIN = " ++
    goBool r.login ++ " AND SUPERUSER = " ++ goBool r.super_user

/-- The parameterised SELECT issued by `readRole`
(`resource_cassandra_role.go`). -/
def readRoleQuery : String :=
  "select role, can_login, is_superuser, salted_hash from system_auth.roles where role = ?"

/-- `resourceRoleCreateOrUpdate` from `resource_cassandra_role.go`: open a
session, execute the CREATE/UPDATE ROLE statement, then read the role back
via `readRole` (its salted hash comes from the world) and write the
attributes to state; the `d.SetId(name)` call and a `readRole` failure
path are elided, as no claim depends on them. -/
def resourceRoleCreateOrUpdate (w : CassandraWorld) (r : RoleData)
    (createRole : Bool) : HandlerOutcome :=
  match w.sessionError with
  | some e => ⟨some e, [], []⟩
  | none =>
    let query := roleCreateOrUpdateQuery createRole r
    match w.execError query with
    | some e => ⟨some e, [], [query]⟩
    | none =>
      ⟨none,
       [("name", r.name), ("super_user", goBool r.super_user), ("login", goBool r.login),
        ("password", w.roleSaltedHash r.name)],
       [query, readRoleQuery]⟩

/-- `resourceRoleUpdate` from `resource_cassandra_role.go`. -/
def resourceRoleUpdate (w : CassandraWorld) (r : RoleData) : HandlerOutcome :=
  resourceRoleCreateOrUpdate w r false

/-! ### Derived rendering forms and spec-side templates -/

/-- The part of a rendered grant statement between the leading verb and the
trailing TO/FROM/OF clause: privilege, resource type and the optional
quoted keyspace/identifier qualifier.  It is shared verbatim by the three
templates. -/
def grantTargetPart (g : Grant) : String :=
  htmlEscape g.Privilege ++ " ON " ++ htmlEscape g.ResourceType ++ " " ++
    (if g.Keyspace != "" then "\"" ++ htmlEscape g.Keyspace ++ "\"" else "") ++
    (if g.Keyspace != "" && g.Identifier != "" then "." else "") ++
    (if g.Identifier != "" then "\"" ++ htmlEscape g.Identifier ++ "\"" else "")

/-- The Create rendering as the spec describes it: the fixed GRANT template
with the field values substituted verbatim inside double quotes. -/
def specCreate (g : Grant) : String :=
  "GRANT " ++ g.Privilege ++ " ON " ++ g.ResourceType ++ " " ++
    (if g.Keyspace != "" then "\"" ++ g.Keyspace ++ "\"" else "") ++
    (if g.Keyspace != "" && g.Identifier != "" then "." else "") ++
    (if g.Identifier != "" then "\"" ++ g.Identifier ++ "\"" else "") ++
    " TO \"" ++ g.Grantee ++ "\""

/-- The Delete rendering as the spec describes it (REVOKE ... FROM). -/
def specDelete (g : Grant) : String :=
  "REVOKE " ++ g.Privilege ++ " ON " ++ g.ResourceType ++ " " ++
    (if g.Keyspace != "" then "\"" ++ g.Keyspace ++ "\"" else "") ++
    (if g.Keyspace != "" && g.Identifier != "" then "." else "") ++
    (if g.Identifier != "" then "\"" ++ g.Identifier ++ "\"" else "") ++
    " FROM \"" ++ g.Grantee ++ "\""

/-- The Read rendering as the spec describes it (LIST ... OF). -/
def specRead (g : Grant) : String :=
  "LIST " ++ g.Privilege ++ " ON " ++ g.ResourceType ++ " " ++
    (if g.Keyspace != "" then "\"" ++ g.Keyspace ++ "\"" else "") ++
    (if g.Keyspace != "" && g.Identifier != "" then "." else "") ++
    (if g.Identifier != "" then "\"" ++ g.Identifier ++ "\"" else "") ++
    " OF \"" ++ g.Grantee ++ "\""

/-! ### Concrete inputs used to instantiate the theorems -/

/-- A pair outside the compatibility table: `describe` does not permit
`table`. -/
def dCompatBad : ResourceData :=
  { privilege := "describe", grantee := "migration", resource_type := "table",
    table_name := "events" }

/-- A pair inside the compatibility table: `describe` permits `all roles`. -/
def dCompatGood : ResourceData :=
  { privilege := "describe", grantee := "migration", resource_type := "all roles" }

/-- A grantee containing an ampersand: accepted by every validation in the
provider (the role regex only forbids single quotes). -/
def dUnescapedGrantee : ResourceData :=
  { privilege := "select", grantee := "a&b", resource_type := "all keyspaces" }

def gUnescapedGrantee : Grant :=
  { Privilege := "select", ResourceType := "all keyspaces", Grantee := "a&b",
    Keyspace := "", Identifier := "" }

/-- A fully populated grant whose fields contain no HTML-special
characters. -/
def gPlain : Grant :=
  { Privilege := "select", ResourceType := "table", Grantee := "web",
    Keyspace := "ks1", Identifier := "events" }

/-- A keyspace-requiring resource type with the keyspace attribute left
empty. -/
def dKsMissing : ResourceData :=
  { privilege := "alter", grantee := "web", resource_type := "keyspace" }

/-- The same input with the keyspace attribute set. -/
def dKsGiven : ResourceData :=
  { privilege := "alter", grantee := "web", resource_type := "keyspace",
    keyspace_name := "ks1" }

/-- An identifier-requiring resource type (`table` needs `table_name`) with
the identifier attribute left empty. -/
def dIdMissing : ResourceData :=
  { privilege := "select", grantee := "web", resource_type := "table",
    keyspace_name := "ks1" }

/-- The same input with the identifier attribute set. -/
def dIdGiven : ResourceData :=
  { privilege := "select", grantee := "web", resource_type := "table",
    keyspace_name := "ks1", table_name := "events" }

def gIdGiven : Grant :=
  { Privilege := "select", ResourceType := "table", Grantee := "web",
    Keyspace := "ks1", Identifier := "events" }

/-- A resource type outside the keyspace-requiring set, with a keyspace
attribute nonetheless supplied (it must be ignored). -/
def dNoKsQualifier : ResourceData :=
  { privilege := "all", grantee := "web", resource_type := "role",
    keyspace_name := "ignored_ks", role_name := "admin" }

def gNoKsQualifier : Grant :=
  { Privilege := "all", ResourceType := "role", Grantee := "web",
    Keyspace := "", Identifier := "admin" }

/-- A world in which every statement execution fails. -/
def wExecFails : CassandraWorld := { execError := fun _ => some "exec failed" }

/-- A world in which every LIST query returns one row. -/
def wOneRow : CassandraWorld := { listRowCount := fun _ => 1 }

/-- A world in which closing a query iterator fails. -/
def wCloseFails : CassandraWorld :=
  { listCloseError := fun _ => some "iterator close failed" }

/-- Keyspace update input used to exhibit the generated statement. -/
def ksUpdateInput : KeyspaceData :=
  { name := "some_keyspace", replication_strategy := "SimpleStrategy",
    strategy_options := [("replication_factor", "1")], durable_writes := true }

/-- Role update input used to exhibit the generated statement. -/
def roleUpdateInput : RoleData :=
  { name := "app_role", password := "0123456789012345678901234567890123456789",
    super_user := false, login := true }

/-- The statement `resourceKeyspaceUpdate` issues on `ksUpdateInput`. -/
def ksUpdateQuery : String :=
  "UPDATE KEYSPACE some_keyspace WITH REPLICATION = \x7b \x27class\x27 : \x27SimpleStrategy\x27, \x27replication_factor\x27 : \x271\x27 \x7d AND DURABLE_WRITES = true"

/-- The statement `resourceRoleUpdate` issues on `roleUpdateInput`. -/
def roleUpdateQuery : String :=
  "UPDATE ROLE \x27app_role\x27 WITH PASSWORD = \x270123456789012345678901234567890123456789\x27 AND LOGIN = true AND SUPERUSER = false"

/-- A second attribute set that parses to the same grant as `dIdGiven`
(it differs only in an attribute `parseData` never reads for `table`). -/
def dIdGivenAlt : ResourceData :=
  { privilege := "select", grantee := "web", resource_type := "table",
    keyspace_name := "ks1", table_name := "events", mbean_pattern := "unread" }

/-! ### Helper lemmas -/

theorem any_beq_left {l : List String} {a : String} :
    (l.any fun v => v == a) = true ↔ a ∈ l := by
  simp [List.any_eq_true]

theorem any_beq_right {l : List String} {a : String} :
    (l.any fun r => a == r) = true ↔ a ∈ l := by
  simp [List.any_eq_true]

/-- Inversion of the success case of `parseData`: the returned grant is
built from the attributes, the compatibility check passed, and the
keyspace and identifier requirements were met. -/
theorem parseData_ok_inv {d : ResourceData} {g : Grant} (hok : parseData d = .ok g) :
    g = { Privilege := d.privilege, ResourceType := d.resource_type, Grantee := d.grantee,
          Keyspace :=
            if resourcesThatRequireKeyspaceQualifier.any (fun r => d.resource_type == r) then
              d.keyspace_name
            else "",
          Identifier :=
            if resourceTypeToIdentifier d.resource_type != "" then
              getAttr d (resourceTypeToIdentifier d.resource_type)
            else "" } ∧
    d.resource_type ∈ privilegeToResourceTypesMap d.privilege ∧
    (d.resource_type ∈ resourcesThatRequireKeyspaceQualifier → d.keyspace_name ≠ "") ∧
    (resourceTypeToIdentifier d.resource_type ≠ "" →
      getAttr d (resourceTypeToIdentifier d.resource_type) ≠ "") := by
  simp only [parseData] at hok
  repeat' split at hok
  any_goals exact Except.noConfusion hok
  all_goals injection hok with hg
  all_goals subst hg
  all_goals refine ⟨?_, ?_, ?_, ?_⟩
  all_goals simp_all [any_beq_left, any_beq_right]

theorem renderCreate_eq (g : Grant) :
    renderCreate g =
      "GRANT " ++ grantTargetPart g ++ " TO \"" ++ htmlEscape g.Grantee ++ "\"" := by
  cases hk : g.Keyspace != "" <;> cases hi : g.Identifier != "" <;>
    simp [-String.reduceAppend, renderCreate, templateCreate, executeTemplate, TNode.render,
          TAtom.render, renderAtoms, grantTargetPart, hk, hi, String.append_assoc]

theorem renderDelete_eq (g : Grant) :
    renderDelete g =
      "REVOKE " ++ grantTargetPart g ++ " FROM \"" ++ htmlEscape g.Grantee ++ "\"" := by
  cases hk : g.Keyspace != "" <;> cases hi : g.Identifier != "" <;>
    simp [-String.reduceAppend, renderDelete, templateDelete, executeTemplate, TNode.render,
          TAtom.render, renderAtoms, grantTargetPart, hk, hi, String.append_assoc]

theorem renderRead_eq (g : Grant) :
    renderRead g =
      "LIST " ++ grantTargetPart g ++ " OF \"" ++ htmlEscape g.Grantee ++ "\"" := by
  cases hk : g.Keyspace != "" <;> cases hi : g.Identifier != "" <;>
    simp [-String.reduceAppend, renderRead, templateRead, executeTemplate, TNode.render,
          TAtom.render, renderAtoms, grantTargetPart, hk, hi, String.append_assoc]

theorem htmlEscapeList_of_noSpecial {l : List Char}
    (h : (l.all fun c =>
      !(c == Char.ofNat 0 || c == '"' || c == Char.ofNat 39 || c == '&' || c == '<' ||
        c == '>')) = true) :
    htmlEscapeList l = String.mk l := by
  induction l with
  | nil => rfl
  | cons c cs ih =>
    simp only [List.all_cons, Bool.and_eq_true] at h
    have hc : htmlEscapeChar c = String.singleton c := by
      have h1 := h.1
      unfold htmlEscapeChar
      (repeat' split) <;> simp_all
    rw [htmlEscapeList, hc, ih h.2]
    apply String.ext
    simp [String.singleton]

/-- `html/template` escaping is the identity on strings free of the five
escaped characters. -/
theorem htmlEscape_of_noSpecial {s : String} (h : hasNoHtmlSpecial s = true) :
    htmlEscape s = s := by
  unfold hasNoHtmlSpecial at h
  rw [htmlEscape, htmlEscapeList_of_noSpecial h]

/-! ### Claims -/

/-- C1: for every (privilege, resource_type) pair such that the resource
type is not in the compatibility table's entry for the privilege
(including privileges with no entry), `parseData` fails with a
compatibility error and returns no `Grant`; for every pair in the table
the compatibility check does not fail. -/
theorem parseData_compat_table (d : ResourceData) :
    (d.resource_type ∉ privilegeToResourceTypesMap d.privilege →
       isCompatError (parseData d) = true ∧ grantReturned (parseData d) = false) ∧
    (d.resource_type ∈ privilegeToResourceTypesMap d.privilege →
       isCompatError (parseData d) = false) := by
  constructor
  · intro h
    by_cases hlen : (privilegeToResourceTypesMap d.privilege).length ≤ 0
    · simp [parseData, hlen, isCompatError, grantReturned]
    · have hany : (privilegeToResourceTypesMap d.privilege).any
          (fun v => v == d.resource_type) = false := by
        rw [Bool.eq_false_iff]
        intro hc
        exact h (any_beq_left.mp hc)
      simp [parseData, hlen, hany, isCompatError, grantReturned]
  · intro h
    have hlen : ¬ (privilegeToResourceTypesMap d.privilege).length ≤ 0 := by
      intro hc
      rw [Nat.le_zero, List.length_eq_zero] at hc
      rw [hc] at h
      exact (List.not_mem_nil _) h
    have hany : (privilegeToResourceTypesMap d.privilege).any
        (fun v => v == d.resource_type) = true := any_beq_left.mpr h
    unfold parseData
    rw [if_neg hlen]
    simp only [hany, Bool.not_true]
    rw [if_neg (by simp)]
    (repeat' split) <;> simp [isCompatError]

/-- Witness for C1 at concrete inputs: (describe, table) is rejected by
the compatibility check, (describe, all roles) passes it. -/
theorem parseData_compat_table_witness :
    (isCompatError (parseData dCompatBad) = true ∧
       grantReturned (parseData dCompatBad) = false) ∧
    isCompatError (parseData dCompatGood) = false :=
  ⟨(parseData_compat_table dCompatBad).1 (by decide),
   (parseData_compat_table dCompatGood).2 (by decide)⟩

/-- C3: for every input whose resource type requires a keyspace qualifier,
`parseData` returns an error when the `keyspace_name` attribute is empty,
and never fails the keyspace check when it is non-empty. -/
theorem parseData_keyspace_check (d : ResourceData)
    (h : d.resource_type ∈ resourcesThatRequireKeyspaceQualifier) :
    (d.keyspace_name = "" → grantReturned (parseData d) = false) ∧
    (d.keyspace_name ≠ "" → isKeyspaceError (parseData d) = false) := by
  have hany : (resourcesThatRequireKeyspaceQualifier.any fun r => d.resource_type == r) = true :=
    any_beq_right.mpr h
  constructor
  · intro hks
    simp only [parseData, apply_ite grantReturned]
    simp [grantReturned, hany, hks]
  · intro hks
    have hbeq : (d.keyspace_name == "") = false := by simp [hks]
    simp only [parseData, apply_ite isKeyspaceError]
    simp [isKeyspaceError, hany, hbeq]

/-- Witness for C3 at concrete inputs: (alter, keyspace) with an empty
keyspace attribute yields no grant; with `ks1` it passes the keyspace
check. -/
theorem parseData_keyspace_check_witness :
    grantReturned (parseData dKsMissing) = false ∧
    isKeyspaceError (parseData dKsGiven) = false :=
  ⟨(parseData_keyspace_check dKsMissing (by decide)).1 rfl,
   (parseData_keyspace_check dKsGiven (by decide)).2 (by decide)⟩

/-- C4: for every input whose resource type maps to a required identifier
attribute, `parseData` errors when that attribute is empty, and any
`Grant` it returns has a non-empty `Identifier`. -/
theorem parseData_identifier_check (d : ResourceData) (g : Grant)
    (h : resourceTypeToIdentifier d.resource_type ≠ "") :
    (getAttr d (resourceTypeToIdentifier d.resource_type) = "" →
       grantReturned (parseData d) = false) ∧
    (parseData d = .ok g → g.Identifier ≠ "") := by
  have hbne : (resourceTypeToIdentifier d.resource_type != "") = true := by simp [h]
  constructor
  · intro hid
    simp only [parseData, apply_ite grantReturned]
    simp [grantReturned, hbne, hid]
  · intro hok
    obtain ⟨hg, _, _, hident⟩ := parseData_ok_inv hok
    rw [hg]
    simp [hbne]
    exact hident h

/-- Witness for C4 at concrete inputs: (select, table) with `table_name`
empty yields no grant; with `table_name = events` the returned grant has a
non-empty identifier. -/
theorem parseData_identifier_check_witness :
    grantReturned (parseData dIdMissing) = false ∧ gIdGiven.Identifier ≠ "" :=
  ⟨(parseData_identifier_check dIdMissing gIdGiven (by decide)).1 rfl,
   (parseData_identifier_check dIdGiven gIdGiven (by decide)).2 rfl⟩

/-- C2 counterexample: the templates are `html/template` templates, so
interpolated values are HTML-escaped; the valid grant with grantee `a&b`
(accepted by `parseData` and by every schema validator, which only forbid
single quotes in role names) renders with `a&amp;b` in place of the
verbatim grantee, so the rendering claimed by the spec is not produced. -/
theorem renderCreate_not_verbatim :
    parseData dUnescapedGrantee = .ok gUnescapedGrantee ∧
    renderCreate gUnescapedGrantee = "GRANT select ON all keyspaces  TO \"a&amp;b\"" ∧
    renderCreate gUnescapedGrantee ≠ "GRANT select ON all keyspaces  TO \"a&b\"" ∧
    specCreate gUnescapedGrantee = "GRANT select ON all keyspaces  TO \"a&b\"" :=
  ⟨rfl, rfl, by decide, rfl⟩

/-- C2 (amended): for every grant whose five fields contain none of the
characters escaped by `html/template` (double quote, apostrophe,
ampersand, less-than, greater-than), the three renderings are exactly the
three fixed templates with the values substituted verbatim inside double
quotes. -/
theorem render_matches_spec_templates (g : Grant)
    (h1 : hasNoHtmlSpecial g.Privilege = true)
    (h2 : hasNoHtmlSpecial g.ResourceType = true)
    (h3 : hasNoHtmlSpecial g.Grantee = true)
    (h4 : hasNoHtmlSpecial g.Keyspace = true)
    (h5 : hasNoHtmlSpecial g.Identifier = true) :
    renderCreate g = specCreate g ∧
    renderDelete g = specDelete g ∧
    renderRead g = specRead g := by
  rw [renderCreate_eq, renderDelete_eq, renderRead_eq]
  simp [-String.reduceAppend, grantTargetPart, specCreate, specDelete, specRead,
        htmlEscape_of_noSpecial h1, htmlEscape_of_noSpecial h2, htmlEscape_of_noSpecial h3,
        htmlEscape_of_noSpecial h4, htmlEscape_of_noSpecial h5, String.append_assoc]

/-- Witness for the amended C2 at a concrete grant with plain fields. -/
theorem render_matches_spec_templates_witness :
    renderCreate gPlain = specCreate gPlain ∧
    renderDelete gPlain = specDelete gPlain ∧
    renderRead gPlain = specRead gPlain :=
  render_matches_spec_templates gPlain (by decide) (by decide) (by decide)
    (by decide) (by decide)

/-- C5: the Create and Read renderings reference the same grant identity:
both consist of a shared middle part (privilege, resource type, quoted
keyspace/identifier) and the same quoted grantee, differing only in the
fixed GRANT/TO versus LIST/OF keywords. -/
theorem create_read_same_identity (g : Grant) :
    renderCreate g = "GRANT " ++ grantTargetPart g ++ " TO \"" ++ htmlEscape g.Grantee ++ "\"" ∧
    renderRead g = "LIST " ++ grantTargetPart g ++ " OF \"" ++ htmlEscape g.Grantee ++ "\"" :=
  ⟨renderCreate_eq g, renderRead_eq g⟩

/-- C6: the grant Update handler rejects every input and performs no state
change: it returns an error, issues no CQL statement and writes no
attribute. -/
theorem grant_update_rejected (d : ResourceData) :
    (resourceGrantUpdate d).err = some "Updating of grants is not supported" ∧
    (resourceGrantUpdate d).queries = [] ∧
    (resourceGrantUpdate d).writes = [] :=
  ⟨rfl, rfl, rfl⟩

/-- C9: for a resource type outside the keyspace-requiring set, every
grant returned by `parseData` has an empty `Keyspace` regardless of the
`keyspace_name` attribute, and the three renderings therefore contain no
keyspace qualifier. -/
theorem grant_no_keyspace_qualifier (d : ResourceData) (g : Grant)
    (h : d.resource_type ∉ resourcesThatRequireKeyspaceQualifier)
    (hok : parseData d = .ok g) :
    g.Keyspace = "" ∧
    renderCreate g =
      "GRANT " ++ htmlEscape g.Privilege ++ " ON " ++ htmlEscape g.ResourceType ++ " " ++
        (if g.Identifier != "" then "\"" ++ htmlEscape g.Identifier ++ "\"" else "") ++
        " TO \"" ++ htmlEscape g.Grantee ++ "\"" ∧
    renderDelete g =
      "REVOKE " ++ htmlEscape g.Privilege ++ " ON " ++ htmlEscape g.ResourceType ++ " " ++
        (if g.Identifier != "" then "\"" ++ htmlEscape g.Identifier ++ "\"" else "") ++
        " FROM \"" ++ htmlEscape g.Grantee ++ "\"" ∧
    renderRead g =
      "LIST " ++ htmlEscape g.Privilege ++ " ON " ++ htmlEscape g.ResourceType ++ " " ++
        (if g.Identifier != "" then "\"" ++ htmlEscape g.Identifier ++ "\"" else "") ++
        " OF \"" ++ htmlEscape g.Grantee ++ "\"" := by
  obtain ⟨hg, _, _, _⟩ := parseData_ok_inv hok
  have hanyf : (resourcesThatRequireKeyspaceQualifier.any fun r => d.resource_type == r) = false := by
    rw [Bool.eq_false_iff]
    intro hc
    exact h (any_beq_right.mp hc)
  have hks : g.Keyspace = "" := by
    rw [hg]
    simp [hanyf]
  refine ⟨hks, ?_, ?_, ?_⟩
  · rw [renderCreate_eq]
    simp [-String.reduceAppend, grantTargetPart, hks, String.append_assoc]
  · rw [renderDelete_eq]
    simp [-String.reduceAppend, grantTargetPart, hks, String.append_assoc]
  · rw [renderRead_eq]
    simp [-String.reduceAppend, grantTargetPart, hks, String.append_assoc]

/-- Witness for C9: `(all, role)` ignores the supplied keyspace attribute
and renders without a keyspace qualifier. -/
theorem grant_no_keyspace_qualifier_witness :
    gNoKsQualifier.Keyspace = "" ∧
    renderCreate gNoKsQualifier =
      "GRANT " ++ htmlEscape gNoKsQualifier.Privilege ++ " ON " ++
        htmlEscape gNoKsQualifier.ResourceType ++ " " ++
        (if gNoKsQualifier.Identifier != "" then
          "\"" ++ htmlEscape gNoKsQualifier.Identifier ++ "\"" else "") ++
        " TO \"" ++ htmlEscape gNoKsQualifier.Grantee ++ "\"" ∧
    renderDelete gNoKsQualifier =
      "REVOKE " ++ htmlEscape gNoKsQualifier.Privilege ++ " ON " ++
        htmlEscape gNoKsQualifier.ResourceType ++ " " ++
        (if gNoKsQualifier.Identifier != "" then
          "\"" ++ htmlEscape gNoKsQualifier.Identifier ++ "\"" else "") ++
        " FROM \"" ++ htmlEscape gNoKsQualifier.Grantee ++ "\"" ∧
    renderRead gNoKsQualifier =
      "LIST " ++ htmlEscape gNoKsQualifier.Privilege ++ " ON " ++
        htmlEscape gNoKsQualifier.ResourceType ++ " " ++
        (if gNoKsQualifier.Identifier != "" then
          "\"" ++ htmlEscape gNoKsQualifier.Identifier ++ "\"" else "") ++
        " OF \"" ++ htmlEscape gNoKsQualifier.Grantee ++ "\"" :=
  grant_no_keyspace_qualifier dNoKsQualifier gNoKsQualifier (by decide) rfl

set_option maxRecDepth 8192 in
/-- C7 (code bug): `boolToAction` maps `false` to `UPDATE`, so the
keyspace and role update handlers issue statements beginning
`UPDATE KEYSPACE` and `UPDATE ROLE` — neither is a CQL DDL statement —
rather than the `ALTER KEYSPACE` / `ALTER ROLE` statements the spec
describes.  Evaluated at a concrete failing input. -/
theorem update_handlers_issue_update_keyword :
    generateCreateOrUpdateKeyspaceQueryString "some_keyspace" false "SimpleStrategy"
        [("replication_factor", "1")] true = .ok ksUpdateQuery ∧
    (resourceKeyspaceUpdate {} ksUpdateInput).queries = [ksUpdateQuery] ∧
    ("UPDATE KEYSPACE".data <+: ksUpdateQuery.data) ∧
    ¬ ("ALTER".data <+: ksUpdateQuery.data) ∧
    roleCreateOrUpdateQuery false roleUpdateInput = roleUpdateQuery ∧
    (resourceRoleUpdate {} roleUpdateInput).queries = [roleUpdateQuery, readRoleQuery] ∧
    ("UPDATE ROLE".data <+: roleUpdateQuery.data) ∧
    ¬ ("ALTER".data <+: roleUpdateQuery.data) :=
  ⟨rfl, rfl, by decide, by decide, rfl, rfl, by decide, by decide⟩

/-- C8: the ID stored by `resourceGrantCreate` is the hex SHA-256 digest
of the `%+v` formatting of the grant (`hash (formatGrant g)`), a function
of the grant fields alone — two inputs parsing to the same grant receive
the same ID — and it is assigned before the GRANT statement executes, so
the execution error is returned with the ID already set. -/
theorem grant_create_id_hash (w w2 : CassandraWorld) (d d2 : ResourceData) (g : Grant)
    (hok : parseData d = .ok g) (hs : w.sessionError = none)
    (hok2 : parseData d2 = .ok g) (hs2 : w2.sessionError = none) :
    (resourceGrantCreate w d).idSet = some (hash (formatGrant g)) ∧
    (resourceGrantCreate w d).err = w.execError (renderCreate g) ∧
    (resourceGrantCreate w d).queries = [renderCreate g] ∧
    (resourceGrantCreate w2 d2).idSet = (resourceGrantCreate w d).idSet := by
  simp [resourceGrantCreate, hok, hok2, hs, hs2]

set_option maxRecDepth 8192 in
/-- Witness for C8: in a world where execution fails, the ID is
nevertheless set, and an input differing in an unread attribute receives
the same ID. -/
theorem grant_create_id_hash_witness :
    (resourceGrantCreate wExecFails dIdGiven).idSet = some (hash (formatGrant gIdGiven)) ∧
    (resourceGrantCreate wExecFails dIdGiven).err = wExecFails.execError (renderCreate gIdGiven) ∧
    (resourceGrantCreate wExecFails dIdGiven).queries = [renderCreate gIdGiven] ∧
    (resourceGrantCreate { } dIdGivenAlt).idSet = (resourceGrantCreate wExecFails dIdGiven).idSet :=
  grant_create_id_hash wExecFails { } dIdGiven dIdGivenAlt gIdGiven rfl rfl rfl rfl

/-- C10: `resourceGrantRead` fails whenever the existence check fails —
with the existence error itself if the check errored, with
"Grant does not exist" if the LIST query returned zero rows — writing no
attribute in either case; it writes attributes only when the existence
check returned `true` with no error. -/
theorem grant_read_gated_on_existence (w : CassandraWorld) (d : ResourceData) (e : String) :
    ((resourceGrantExists w d).err = none → (resourceGrantExists w d).found = false →
       (resourceGrantRead w d).err = some "Grant does not exist" ∧
       (resourceGrantRead w d).writes = []) ∧
    ((resourceGrantExists w d).err = some e →
       (resourceGrantRead w d).err = some e ∧ (resourceGrantRead w d).writes = []) ∧
    ((resourceGrantRead w d).writes ≠ [] →
       (resourceGrantExists w d).found = true ∧ (resourceGrantExists w d).err = none) := by
  refine ⟨?_, ?_, ?_⟩
  · intro he hf
    simp [resourceGrantRead, he, hf]
  · intro he
    simp [resourceGrantRead, he]
  · intro hw
    cases he : (resourceGrantExists w d).err with
    | none =>
      cases hf : (resourceGrantExists w d).found with
      | false => exact absurd (by simp [resourceGrantRead, he, hf]) hw
      | true => exact ⟨rfl, rfl⟩
    | some e2 => exact absurd (by simp [resourceGrantRead, he]) hw

/-- Witness for C10 at concrete worlds: zero rows gives the
"Grant does not exist" error with no writes, an iterator error propagates
with no writes, and one row with no error lets the read write
attributes. -/
theorem grant_read_gated_on_existence_witness :
    ((resourceGrantRead { } dIdGiven).err = some "Grant does not exist" ∧
       (resourceGrantRead { } dIdGiven).writes = []) ∧
    ((resourceGrantRead wCloseFails dIdGiven).err = some "iterator close failed" ∧
       (resourceGrantRead wCloseFails dIdGiven).writes = []) ∧
    ((resourceGrantExists wOneRow dIdGiven).found = true ∧
       (resourceGrantExists wOneRow dIdGiven).err = none) :=
  ⟨(grant_read_gated_on_existence { } dIdGiven "unused").1 rfl rfl,
   (grant_read_gated_on_existence wCloseFails dIdGiven "iterator close failed").2.1 rfl,
   (grant_read_gated_on_existence wOneRow dIdGiven "unused").2.2 (by decide)⟩

end CassandraProvider
